import Mathlib

/-!
Verification of `aioauth.oidc.core.grant_type` (OpenID Connect extensions of
the OAuth 2.0 authorization_code and password grant types).

The two `create_token_response` methods are shallowly embedded as pure Lean
functions.  Every storage call the Python code performs (`create_token`,
`get_authorization_code`, `get_id_token`, `delete_authorization_code`) is
recorded, in order, in an explicit trace, and the storage collaborator is an
abstract oracle (a record of response functions).  Python exceptions
(`RuntimeError`, `AssertionError`, and the protocol-level OAuth2 errors that
the surrounding dispatcher distinguishes from them) become an explicit error
type, so `raise` is `Except.error`.  The randomness consumed by
`generate_token` is made explicit: each call site receives its own entropy
source mapping positions to indices into the fixed token alphabet.
-/

namespace Aioauth

/-- Modelled from the spec: the `Token` entity (`aioauth.models.Token` is not
under `src/`).  Key attributes per the spec's data-model table: access_token,
refresh_token, expires_in, refresh_token_expires_in, scope, token_type. -/
structure Token where
  access_token : String
  refresh_token : String
  expires_in : Nat
  refresh_token_expires_in : Nat
  scope : String
  token_type : String
  deriving DecidableEq, Repr, Inhabited

/-- Modelled from the spec: the `AuthorizationCode` entity
(`aioauth.models.AuthorizationCode` is not under `src/`).  Key attributes per
the spec: code, client_id, scope, nonce (nullable), redirect_uri. -/
structure AuthorizationCode where
  code : String
  client_id : String
  scope : String
  nonce : Option String
  redirect_uri : String
  deriving DecidableEq, Repr, Inhabited

/-- Modelled from the spec: the OIDC `TokenResponse`
(`aioauth.oidc.core.responses.TokenResponse` is not under `src/`).  All Token
fields plus the id_token OIDC extension field; the fields are exactly the
seven the wire-level response carries. -/
structure TokenResponse where
  access_token : String
  expires_in : Nat
  id_token : String
  refresh_token : String
  refresh_token_expires_in : Nat
  scope : String
  token_type : String
  deriving DecidableEq, Repr, Inhabited

/-- Modelled from the spec: the query-parameter part of the abstract Request
(`aioauth.requests` is not under `src/`); only `redirect_uri` is read by the
code under verification. -/
structure Query where
  redirect_uri : String
  deriving DecidableEq, Repr, Inhabited

/-- Modelled from the spec: the posted-form part of the abstract Request;
only the (optional) authorization `code` is read by the code under
verification. -/
structure Post where
  code : Option String
  deriving DecidableEq, Repr, Inhabited

/-- Modelled from the spec: the abstract incoming Request (query parameters
and posted form fields). -/
structure Request where
  query : Query
  post : Post
  deriving DecidableEq, Repr, Inhabited

/-- Modelled from the spec: the registered `Client` entity; only `client_id`
is read by the code under verification. -/
structure Client where
  client_id : String
  deriving DecidableEq, Repr, Inhabited

/-- Python-side failures, as the surrounding dispatcher distinguishes them:
`runtimeError` (the contract-violation raise), `assertionError` (a failed
`assert`), and `oauth2Error` (the client-facing protocol error taxonomy,
which the code under verification never raises). -/
inductive PyError where
  | runtimeError (msg : String)
  | assertionError
  | oauth2Error (error_code : String)
  deriving DecidableEq, Repr

/-- Modelled from the spec: the storage contract the core calls into.  Each
operation is an oracle giving the collaborator's reply; `create_token`,
`get_authorization_code` and `get_id_token` take the arguments in the order
the Python call sites pass them, and `delete_authorization_code` returns
nothing so it has no oracle field. -/
structure Storage where
  create_token : Request → String → String → String → String → Token
  get_authorization_code : Request → String → String → Option AuthorizationCode
  get_id_token : String → Option String → String → Request → String → String → String

/-- One recorded storage call, with the exact arguments the Python code
passes at the corresponding call site. -/
inductive StorageOp where
  | create_token (request : Request) (client_id scope access_token refresh_token : String)
  | get_authorization_code (request : Request) (client_id code : String)
  | get_id_token (client_id : String) (nonce : Option String) (redirect_uri : String)
      (request : Request) (response_type scope : String)
  | delete_authorization_code (request : Request) (client_id code : String)
  deriving DecidableEq, Repr

/-- Modelled from the spec: the fixed, entropy-bearing token alphabet used by
`aioauth.utils.generate_token` (not under `src/`): ASCII letters and digits. -/
def token_alphabet : List Char :=
  ("ABCDEFGHIJKLMNOPQRSTUVWXYZabcdefghijklmnopqrstuvwxyz0123456789").toList

theorem token_alphabet_length : token_alphabet.length = 62 := by decide

/-- Modelled from the spec: `aioauth.utils.generate_token` (not under
`src/`).  Per the spec, token strings are drawn from the fixed alphabet with
the requested length; the randomness is an explicit source `rand` choosing,
for each position, an index into the alphabet. -/
def generate_token (length : Nat) (rand : Nat → Fin token_alphabet.length) : String :=
  String.mk ((List.range length).map fun i => token_alphabet.get (rand i))

/-- The OIDC `AuthorizationCodeGrantType` handler's per-request state: its
storage collaborator and the `scope` recorded by a successful validation
phase (`None` on a freshly constructed handler). -/
structure AuthorizationCodeGrantType where
  storage : Storage
  scope : Option String

/-- The OIDC `PasswordGrantType` handler's per-request state. -/
structure PasswordGrantType where
  storage : Storage
  scope : Option String

/-- `AuthorizationCodeGrantType.create_token_response`, translated statement
by statement from `src/aioauth/oidc/core/grant_type.py`.  Returns the trace
of storage calls together with the outcome. -/
def AuthorizationCodeGrantType.create_token_response
    (self : AuthorizationCodeGrantType)
    (rand_access rand_refresh : Nat → Fin token_alphabet.length)
    (request : Request) (client : Client) :
    List StorageOp × Except PyError TokenResponse :=
  match self.scope with
  | none => ([], Except.error (PyError.runtimeError "validate_request() must be called first"))
  | some scope =>
    let token := self.storage.create_token request client.client_id scope
      (generate_token 42 rand_access) (generate_token 48 rand_refresh)
    let trace := [StorageOp.create_token request client.client_id scope
      (generate_token 42 rand_access) (generate_token 48 rand_refresh)]
    -- validate_request will have already ensured the request includes a code.
    match request.post.code with
    | none => (trace, Except.error PyError.assertionError)
    | some code =>
      let trace := trace ++ [StorageOp.get_authorization_code request client.client_id code]
      -- validate_request will have already ensured the code was valid.
      match self.storage.get_authorization_code request client.client_id code with
      | none => (trace, Except.error PyError.assertionError)
      | some authorization_code =>
        let id_token := self.storage.get_id_token client.client_id authorization_code.nonce
          request.query.redirect_uri request "code" scope
        let trace := trace ++ [StorageOp.get_id_token client.client_id authorization_code.nonce
          request.query.redirect_uri request "code" scope]
        let trace := trace ++ [StorageOp.delete_authorization_code request client.client_id code]
        (trace, Except.ok
          { access_token := token.access_token
            expires_in := token.expires_in
            id_token := id_token
            refresh_token := token.refresh_token
            refresh_token_expires_in := token.refresh_token_expires_in
            scope := token.scope
            token_type := token.token_type })

/-- `PasswordGrantType.create_token_response`, translated statement by
statement from `src/aioauth/oidc/core/grant_type.py`. -/
def PasswordGrantType.create_token_response
    (self : PasswordGrantType)
    (rand_access rand_refresh : Nat → Fin token_alphabet.length)
    (request : Request) (client : Client) :
    List StorageOp × Except PyError TokenResponse :=
  match self.scope with
  | none => ([], Except.error (PyError.runtimeError "validate_request() must be called first"))
  | some scope =>
    let token := self.storage.create_token request client.client_id scope
      (generate_token 42 rand_access) (generate_token 48 rand_refresh)
    let trace := [StorageOp.create_token request client.client_id scope
      (generate_token 42 rand_access) (generate_token 48 rand_refresh)]
    let id_token := self.storage.get_id_token client.client_id none
      request.query.redirect_uri request "code" scope
    let trace := trace ++ [StorageOp.get_id_token client.client_id none
      request.query.redirect_uri request "code" scope]
    (trace, Except.ok
      { access_token := token.access_token
        expires_in := token.expires_in
        id_token := id_token
        refresh_token := token.refresh_token
        refresh_token_expires_in := token.refresh_token_expires_in
        scope := token.scope
        token_type := token.token_type })

/-- The nonce argument of a `get_id_token` call, `none` for other calls. -/
def StorageOp.nonce_arg : StorageOp → Option (Option String)
  | .get_id_token _ nonce _ _ _ _ => some nonce
  | _ => none

/-- The redirect_uri argument of a `get_id_token` call, `none` for other calls. -/
def StorageOp.redirect_arg : StorageOp → Option String
  | .get_id_token _ _ redirect_uri _ _ _ => some redirect_uri
  | _ => none

/-- The access_token argument of a `create_token` call, `none` for other calls. -/
def StorageOp.access_arg : StorageOp → Option String
  | .create_token _ _ _ access_token _ => some access_token
  | _ => none

/-- The refresh_token argument of a `create_token` call, `none` for other calls. -/
def StorageOp.refresh_arg : StorageOp → Option String
  | .create_token _ _ _ _ refresh_token => some refresh_token
  | _ => none

/-- Whether a storage call is an authorization-code lookup. -/
def StorageOp.is_code_lookup : StorageOp → Bool
  | .get_authorization_code _ _ _ => true
  | _ => false

/-- Whether a storage call is an authorization-code deletion. -/
def StorageOp.is_code_delete : StorageOp → Bool
  | .delete_authorization_code _ _ _ => true
  | _ => false

/-! Concrete fixtures, used to exercise the handlers at explicit inputs. -/

/-- A concrete entropy source for the access-token call. -/
def exRandA : Nat → Fin token_alphabet.length :=
  fun i => ⟨i % 62, by rw [token_alphabet_length]; exact Nat.mod_lt i (by decide)⟩

/-- A concrete entropy source for the refresh-token call. -/
def exRandR : Nat → Fin token_alphabet.length :=
  fun i => ⟨(i + 7) % 62, by rw [token_alphabet_length]; exact Nat.mod_lt _ (by decide)⟩

/-- A concrete stored authorization code, mirroring the spec's end-to-end
scenario: code "authcode", nonce "xyz", redirect_uri "https://example.com/cb". -/
def exAC : AuthorizationCode :=
  { code := "authcode"
    client_id := "client123"
    scope := "read write"
    nonce := some "xyz"
    redirect_uri := "https://example.com/cb" }

/-- A concrete storage oracle: minting echoes its arguments back into the
Token (except that the Token's scope is the storage's own choice, to keep the
minted Token distinguishable from the validated scope), lookup finds exactly
the code "authcode", and the identity token records the nonce it was given. -/
def exStorage : Storage :=
  { create_token := fun _ _ _ access_token refresh_token =>
      { access_token := access_token
        refresh_token := refresh_token
        expires_in := 3600
        refresh_token_expires_in := 7200
        scope := "storage-chosen-scope"
        token_type := "Bearer" }
    get_authorization_code := fun _ _ code =>
      if code = "authcode" then some exAC else none
    get_id_token := fun client_id nonce _ _ _ _ =>
      "idtok." ++ client_id ++ "." ++ (match nonce with | some n => n | none => "no-nonce") }

/-- A concrete request redeeming code "authcode". -/
def exRequest : Request :=
  { query := { redirect_uri := "https://example.com/cb" }
    post := { code := some "authcode" } }

/-- A concrete request with no code posted. -/
def exRequestNoCode : Request :=
  { query := { redirect_uri := "https://example.com/cb" }
    post := { code := none } }

/-- The concrete client of the spec's end-to-end scenario. -/
def exClient : Client := { client_id := "client123" }

/-- A validated authorization_code handler over the concrete storage. -/
def exSelfA : AuthorizationCodeGrantType :=
  { storage := exStorage, scope := some "read write" }

/-- A freshly constructed (unvalidated) authorization_code handler. -/
def exSelfAFresh : AuthorizationCodeGrantType :=
  { storage := exStorage, scope := none }

/-- A validated password handler over the concrete storage. -/
def exSelfP : PasswordGrantType :=
  { storage := exStorage, scope := some "read write" }

/-- A freshly constructed (unvalidated) password handler. -/
def exSelfPFresh : PasswordGrantType :=
  { storage := exStorage, scope := none }

/-- The concrete successful authorization_code run. -/
def exRunA : List StorageOp × Except PyError TokenResponse :=
  exSelfA.create_token_response exRandA exRandR exRequest exClient

/-- The concrete successful password run. -/
def exRunP : List StorageOp × Except PyError TokenResponse :=
  exSelfP.create_token_response exRandA exRandR exRequest exClient

/-! Theorems settling the claims. -/

/-- Claim C1: for both `AuthorizationCodeGrantType.create_token_response` and
`PasswordGrantType.create_token_response`, if the handler's validated scope
is unset, the call fails with the fatal contract-violation `RuntimeError`
and never returns a `TokenResponse`. -/
theorem validate_before_issue
    (selfA : AuthorizationCodeGrantType) (selfP : PasswordGrantType)
    (ra rr ra2 rr2 : Nat → Fin token_alphabet.length)
    (reqA reqP : Request) (clA clP : Client)
    (hA : selfA.scope = none) (hP : selfP.scope = none) :
    (selfA.create_token_response ra rr reqA clA).2 =
      Except.error (PyError.runtimeError "validate_request() must be called first") ∧
    (selfP.create_token_response ra2 rr2 reqP clP).2 =
      Except.error (PyError.runtimeError "validate_request() must be called first") ∧
    (∀ resp : TokenResponse, (selfA.create_token_response ra rr reqA clA).2 ≠ Except.ok resp) ∧
    (∀ resp : TokenResponse, (selfP.create_token_response ra2 rr2 reqP clP).2 ≠ Except.ok resp) := by
  simp [AuthorizationCodeGrantType.create_token_response,
    PasswordGrantType.create_token_response, hA, hP]

/-- Witness for C1: the contract violation observed on concrete freshly
constructed handlers. -/
theorem validate_before_issue_witness :
    exSelfAFresh.scope = none ∧
    (exSelfAFresh.create_token_response exRandA exRandR exRequest exClient).2 =
      Except.error (PyError.runtimeError "validate_request() must be called first") :=
  ⟨rfl, (validate_before_issue exSelfAFresh exSelfPFresh exRandA exRandR exRandA exRandR
    exRequest exRequest exClient exClient rfl rfl).1⟩

/-- Claim C9: when either handler fails because the validated scope is
unset, no storage operation has been invoked at all — the recorded trace is
empty, so no token mint, no code lookup or deletion, and no identity-token
request has happened. -/
theorem scope_unset_no_storage_ops
    (selfA : AuthorizationCodeGrantType) (selfP : PasswordGrantType)
    (ra rr ra2 rr2 : Nat → Fin token_alphabet.length)
    (reqA reqP : Request) (clA clP : Client)
    (hA : selfA.scope = none) (hP : selfP.scope = none) :
    (selfA.create_token_response ra rr reqA clA).1 = [] ∧
    (selfP.create_token_response ra2 rr2 reqP clP).1 = [] := by
  simp [AuthorizationCodeGrantType.create_token_response,
    PasswordGrantType.create_token_response, hA, hP]

/-- Witness for C9: the empty traces observed on concrete freshly
constructed handlers. -/
theorem scope_unset_no_storage_ops_witness :
    exSelfAFresh.scope = none ∧ exSelfPFresh.scope = none ∧
    (exSelfAFresh.create_token_response exRandA exRandR exRequest exClient).1 = [] ∧
    (exSelfPFresh.create_token_response exRandA exRandR exRequest exClient).1 = [] := by
  refine ⟨rfl, rfl, ?_⟩
  exact scope_unset_no_storage_ops exSelfAFresh exSelfPFresh exRandA exRandR exRandA exRandR
    exRequest exRequest exClient exClient rfl rfl

/-- Claim C5: in `AuthorizationCodeGrantType.create_token_response`, if the
request carries no code or the re-fetch finds no AuthorizationCode, the
handler fails with a fatal assertion failure: it never returns a
`TokenResponse` and never raises a client-facing protocol error. -/
theorem refetch_missing_fatal
    (self : AuthorizationCodeGrantType)
    (ra rr : Nat → Fin token_alphabet.length)
    (request : Request) (client : Client) (scope : String)
    (hscope : self.scope = some scope)
    (h : request.post.code = none ∨
      ∃ code, request.post.code = some code ∧
        self.storage.get_authorization_code request client.client_id code = none) :
    (self.create_token_response ra rr request client).2 = Except.error PyError.assertionError ∧
    (∀ resp : TokenResponse,
      (self.create_token_response ra rr request client).2 ≠ Except.ok resp) ∧
    (∀ s : String,
      (self.create_token_response ra rr request client).2 ≠
        Except.error (PyError.oauth2Error s)) := by
  rcases h with hcode | ⟨code, hcode, hac⟩
  · simp [AuthorizationCodeGrantType.create_token_response, hscope, hcode]
  · simp [AuthorizationCodeGrantType.create_token_response, hscope, hcode, hac]

/-- Witness for C5: a validated handler receiving a request with no code
fails with the assertion failure. -/
theorem refetch_missing_fatal_witness :
    exSelfA.scope = some "read write" ∧ exRequestNoCode.post.code = none ∧
    (exSelfA.create_token_response exRandA exRandR exRequestNoCode exClient).2 =
      Except.error PyError.assertionError :=
  ⟨rfl, rfl, (refetch_missing_fatal exSelfA exRandA exRandR exRequestNoCode exClient
    "read write" rfl (Or.inl rfl)).1⟩

/-- The TokenResponse the concrete authorization_code run produces. -/
def exRespA : TokenResponse :=
  { access_token := generate_token 42 exRandA
    expires_in := 3600
    id_token := "idtok.client123.xyz"
    refresh_token := generate_token 48 exRandR
    refresh_token_expires_in := 7200
    scope := "storage-chosen-scope"
    token_type := "Bearer" }

/-- Claim C2: every successful `AuthorizationCodeGrantType.create_token_response`
invocation performs its storage operations in exactly this order:
`create_token`, then `get_authorization_code`, then `get_id_token`, then
`delete_authorization_code`, and only then returns; in particular the
deletion is unconditionally present on the success path, after the code's
data has been read. -/
theorem success_trace_order
    (self : AuthorizationCodeGrantType)
    (ra rr : Nat → Fin token_alphabet.length)
    (request : Request) (client : Client) (resp : TokenResponse)
    (h : (self.create_token_response ra rr request client).2 = Except.ok resp) :
    ∃ scope code authorization_code,
      self.scope = some scope ∧
      request.post.code = some code ∧
      self.storage.get_authorization_code request client.client_id code =
        some authorization_code ∧
      (self.create_token_response ra rr request client).1 =
        [StorageOp.create_token request client.client_id scope
          (generate_token 42 ra) (generate_token 48 rr),
         StorageOp.get_authorization_code request client.client_id code,
         StorageOp.get_id_token client.client_id authorization_code.nonce
          request.query.redirect_uri request "code" scope,
         StorageOp.delete_authorization_code request client.client_id code] := by
  cases hscope : self.scope with
  | none => simp [AuthorizationCodeGrantType.create_token_response, hscope] at h
  | some scope =>
    cases hcode : request.post.code with
    | none =>
      simp [AuthorizationCodeGrantType.create_token_response, hscope, hcode] at h
    | some code =>
      cases hac : self.storage.get_authorization_code request client.client_id code with
      | none =>
        simp [AuthorizationCodeGrantType.create_token_response, hscope, hcode, hac] at h
      | some authorization_code =>
        exact ⟨scope, code, authorization_code, rfl, rfl, hac, by
          simp [AuthorizationCodeGrantType.create_token_response, hscope, hcode, hac]⟩

/-- Witness for C2: the concrete successful run and its exact four-step
trace, obtained from the theorem. -/
theorem success_trace_order_witness :
    (exSelfA.create_token_response exRandA exRandR exRequest exClient).2 =
      Except.ok exRespA ∧
    (∃ scope code authorization_code,
      exSelfA.scope = some scope ∧
      exRequest.post.code = some code ∧
      exSelfA.storage.get_authorization_code exRequest exClient.client_id code =
        some authorization_code ∧
      (exSelfA.create_token_response exRandA exRandR exRequest exClient).1 =
        [StorageOp.create_token exRequest exClient.client_id scope
          (generate_token 42 exRandA) (generate_token 48 exRandR),
         StorageOp.get_authorization_code exRequest exClient.client_id code,
         StorageOp.get_id_token exClient.client_id authorization_code.nonce
          exRequest.query.redirect_uri exRequest "code" scope,
         StorageOp.delete_authorization_code exRequest exClient.client_id code]) :=
  ⟨rfl, success_trace_order exSelfA exRandA exRandR exRequest exClient exRespA rfl⟩

/-- Claim C3: in `AuthorizationCodeGrantType.create_token_response` the one
`get_id_token` call receives exactly the nonce of the re-fetched
AuthorizationCode, and in `PasswordGrantType.create_token_response` the one
`get_id_token` call receives nonce `none`. -/
theorem nonce_binding
    (selfA : AuthorizationCodeGrantType) (selfP : PasswordGrantType)
    (ra rr ra2 rr2 : Nat → Fin token_alphabet.length)
    (reqA reqP : Request) (clA clP : Client)
    (scopeA scopeP code : String) (authorization_code : AuthorizationCode)
    (hscopeA : selfA.scope = some scopeA)
    (hcode : reqA.post.code = some code)
    (hac : selfA.storage.get_authorization_code reqA clA.client_id code =
      some authorization_code)
    (hscopeP : selfP.scope = some scopeP) :
    (selfA.create_token_response ra rr reqA clA).1.filterMap StorageOp.nonce_arg =
      [authorization_code.nonce] ∧
    (selfP.create_token_response ra2 rr2 reqP clP).1.filterMap StorageOp.nonce_arg =
      [(none : Option String)] := by
  constructor
  · simp [AuthorizationCodeGrantType.create_token_response, hscopeA, hcode, hac,
      StorageOp.nonce_arg]
  · simp [PasswordGrantType.create_token_response, hscopeP, StorageOp.nonce_arg]

/-- Witness for C3: a code created with nonce "xyz" leads to a single
id-token issuance call with nonce "xyz"; the password flow's single
id-token issuance call carries nonce `none`. -/
theorem nonce_binding_witness :
    exAC.nonce = some "xyz" ∧
    (exSelfA.create_token_response exRandA exRandR exRequest exClient).1.filterMap
      StorageOp.nonce_arg = [some "xyz"] ∧
    (exSelfP.create_token_response exRandA exRandR exRequest exClient).1.filterMap
      StorageOp.nonce_arg = [(none : Option String)] := by
  refine ⟨rfl, ?_⟩
  exact nonce_binding exSelfA exSelfP exRandA exRandR exRandA exRandR
    exRequest exRequest exClient exClient "read write" "read write" "authcode" exAC
    rfl rfl rfl rfl

/-- The AuthorizationCode stored for the C4 counterexample: its stored
redirect_uri differs from the redeeming request's query redirect_uri. -/
def cexAC : AuthorizationCode :=
  { code := "authcode"
    client_id := "client123"
    scope := "read write"
    nonce := some "xyz"
    redirect_uri := "https://stored.example/cb" }

/-- Storage oracle for the C4 counterexample. -/
def cexStorage : Storage :=
  { create_token := fun _ _ _ access_token refresh_token =>
      { access_token := access_token
        refresh_token := refresh_token
        expires_in := 3600
        refresh_token_expires_in := 7200
        scope := "read write"
        token_type := "Bearer" }
    get_authorization_code := fun _ _ code =>
      if code = "authcode" then some cexAC else none
    get_id_token := fun _ _ _ _ _ _ => "idtok" }

/-- A redeeming request whose query redirect_uri is not the stored one. -/
def cexRequest : Request :=
  { query := { redirect_uri := "https://query.example/cb" }
    post := { code := some "authcode" } }

/-- Validated handler for the C4 counterexample. -/
def cexSelfA : AuthorizationCodeGrantType :=
  { storage := cexStorage, scope := some "read write" }

/-- The C4 counterexample run. -/
def cexRunA : List StorageOp × Except PyError TokenResponse :=
  cexSelfA.create_token_response exRandA exRandR cexRequest exClient

/-- Counterexample to claim C4: the claim says the redirect_uri argument
passed to `get_id_token` is the redirect_uri stored on the re-fetched
AuthorizationCode; here the re-fetched code stores
"https://stored.example/cb", the run succeeds, yet the single `get_id_token`
call receives "https://query.example/cb" — the request's query
redirect_uri, not the stored one. -/
theorem redirect_uri_counterexample :
    cexSelfA.storage.get_authorization_code cexRequest exClient.client_id "authcode" =
      some cexAC ∧
    cexAC.redirect_uri = "https://stored.example/cb" ∧
    (cexRunA.2.toOption.isSome = true) ∧
    cexRunA.1.filterMap StorageOp.redirect_arg = ["https://query.example/cb"] ∧
    ("https://query.example/cb" : String) ≠ "https://stored.example/cb" := by
  refine ⟨rfl, rfl, rfl, ?_, by decide⟩
  rfl

/-- Claim C4 as amended: the re-fetch recovers the original nonce, and the
`get_id_token` call is bound to that recovered nonce; its redirect_uri
argument, however, is the redeeming request's query redirect_uri, not the
redirect_uri stored on the re-fetched AuthorizationCode. -/
theorem idtoken_binding_amended
    (self : AuthorizationCodeGrantType)
    (ra rr : Nat → Fin token_alphabet.length)
    (request : Request) (client : Client)
    (scope code : String) (authorization_code : AuthorizationCode)
    (hscope : self.scope = some scope)
    (hcode : request.post.code = some code)
    (hac : self.storage.get_authorization_code request client.client_id code =
      some authorization_code) :
    (self.create_token_response ra rr request client).1.filterMap StorageOp.nonce_arg =
      [authorization_code.nonce] ∧
    (self.create_token_response ra rr request client).1.filterMap StorageOp.redirect_arg =
      [request.query.redirect_uri] := by
  constructor <;>
    simp [AuthorizationCodeGrantType.create_token_response, hscope, hcode, hac,
      StorageOp.nonce_arg, StorageOp.redirect_arg]

/-- Witness for the amended C4: on the counterexample fixtures the id-token
call receives the recovered nonce "xyz" and the query redirect_uri. -/
theorem idtoken_binding_amended_witness :
    cexRunA.1.filterMap StorageOp.nonce_arg = [some "xyz"] ∧
    cexRunA.1.filterMap StorageOp.redirect_arg = ["https://query.example/cb"] :=
  idtoken_binding_amended cexSelfA exRandA exRandR cexRequest exClient
    "read write" "authcode" cexAC rfl rfl rfl

/-- Claim C6: every TokenResponse returned by a successful
`create_token_response` of either grant type carries all of access_token,
token_type, expires_in, refresh_token, refresh_token_expires_in, scope and
the always-included OIDC id_token: the success value is the fully populated
seven-field record. -/
theorem response_fields_complete
    (selfA : AuthorizationCodeGrantType) (selfP : PasswordGrantType)
    (ra rr ra2 rr2 : Nat → Fin token_alphabet.length)
    (reqA reqP : Request) (clA clP : Client)
    (scopeA scopeP code : String) (authorization_code : AuthorizationCode)
    (hscopeA : selfA.scope = some scopeA)
    (hcode : reqA.post.code = some code)
    (hac : selfA.storage.get_authorization_code reqA clA.client_id code =
      some authorization_code)
    (hscopeP : selfP.scope = some scopeP) :
    (selfA.create_token_response ra rr reqA clA).2 = Except.ok
      { access_token := (selfA.storage.create_token reqA clA.client_id scopeA
          (generate_token 42 ra) (generate_token 48 rr)).access_token
        expires_in := (selfA.storage.create_token reqA clA.client_id scopeA
          (generate_token 42 ra) (generate_token 48 rr)).expires_in
        id_token := selfA.storage.get_id_token clA.client_id authorization_code.nonce
          reqA.query.redirect_uri reqA "code" scopeA
        refresh_token := (selfA.storage.create_token reqA clA.client_id scopeA
          (generate_token 42 ra) (generate_token 48 rr)).refresh_token
        refresh_token_expires_in := (selfA.storage.create_token reqA clA.client_id scopeA
          (generate_token 42 ra) (generate_token 48 rr)).refresh_token_expires_in
        scope := (selfA.storage.create_token reqA clA.client_id scopeA
          (generate_token 42 ra) (generate_token 48 rr)).scope
        token_type := (selfA.storage.create_token reqA clA.client_id scopeA
          (generate_token 42 ra) (generate_token 48 rr)).token_type } ∧
    (selfP.create_token_response ra2 rr2 reqP clP).2 = Except.ok
      { access_token := (selfP.storage.create_token reqP clP.client_id scopeP
          (generate_token 42 ra2) (generate_token 48 rr2)).access_token
        expires_in := (selfP.storage.create_token reqP clP.client_id scopeP
          (generate_token 42 ra2) (generate_token 48 rr2)).expires_in
        id_token := selfP.storage.get_id_token clP.client_id none
          reqP.query.redirect_uri reqP "code" scopeP
        refresh_token := (selfP.storage.create_token reqP clP.client_id scopeP
          (generate_token 42 ra2) (generate_token 48 rr2)).refresh_token
        refresh_token_expires_in := (selfP.storage.create_token reqP clP.client_id scopeP
          (generate_token 42 ra2) (generate_token 48 rr2)).refresh_token_expires_in
        scope := (selfP.storage.create_token reqP clP.client_id scopeP
          (generate_token 42 ra2) (generate_token 48 rr2)).scope
        token_type := (selfP.storage.create_token reqP clP.client_id scopeP
          (generate_token 42 ra2) (generate_token 48 rr2)).token_type } := by
  constructor
  · simp [AuthorizationCodeGrantType.create_token_response, hscopeA, hcode, hac]
  · simp [PasswordGrantType.create_token_response, hscopeP]

/-- Witness for C6: the concrete runs of both handlers succeed with fully
populated responses. -/
theorem response_fields_complete_witness :
    (exSelfA.create_token_response exRandA exRandR exRequest exClient).2 =
      Except.ok exRespA ∧
    (exSelfP.create_token_response exRandA exRandR exRequest exClient).2 =
      Except.ok
        { access_token := generate_token 42 exRandA
          expires_in := 3600
          id_token := "idtok.client123.no-nonce"
          refresh_token := generate_token 48 exRandR
          refresh_token_expires_in := 7200
          scope := "storage-chosen-scope"
          token_type := "Bearer" } :=
  response_fields_complete exSelfA exSelfP exRandA exRandR exRandA exRandR
    exRequest exRequest exClient exClient "read write" "read write" "authcode" exAC
    rfl rfl rfl rfl

/-- Claim C10: a successful response of either grant type echoes storage's
results exactly: every Token-derived field equals the corresponding field of
the Token returned by `storage.create_token` — in particular scope comes
from the returned Token, not from the handler's validated scope — and
id_token equals the string returned by `storage.get_id_token`. -/
theorem response_echoes_storage
    (selfA : AuthorizationCodeGrantType) (selfP : PasswordGrantType)
    (ra rr ra2 rr2 : Nat → Fin token_alphabet.length)
    (reqA reqP : Request) (clA clP : Client)
    (scopeA scopeP code : String) (authorization_code : AuthorizationCode)
    (hscopeA : selfA.scope = some scopeA)
    (hcode : reqA.post.code = some code)
    (hac : selfA.storage.get_authorization_code reqA clA.client_id code =
      some authorization_code)
    (hscopeP : selfP.scope = some scopeP) :
    (∀ resp : TokenResponse,
      (selfA.create_token_response ra rr reqA clA).2 = Except.ok resp →
      resp.access_token = (selfA.storage.create_token reqA clA.client_id scopeA
        (generate_token 42 ra) (generate_token 48 rr)).access_token ∧
      resp.refresh_token = (selfA.storage.create_token reqA clA.client_id scopeA
        (generate_token 42 ra) (generate_token 48 rr)).refresh_token ∧
      resp.expires_in = (selfA.storage.create_token reqA clA.client_id scopeA
        (generate_token 42 ra) (generate_token 48 rr)).expires_in ∧
      resp.refresh_token_expires_in = (selfA.storage.create_token reqA clA.client_id scopeA
        (generate_token 42 ra) (generate_token 48 rr)).refresh_token_expires_in ∧
      resp.scope = (selfA.storage.create_token reqA clA.client_id scopeA
        (generate_token 42 ra) (generate_token 48 rr)).scope ∧
      resp.token_type = (selfA.storage.create_token reqA clA.client_id scopeA
        (generate_token 42 ra) (generate_token 48 rr)).token_type ∧
      resp.id_token = selfA.storage.get_id_token clA.client_id authorization_code.nonce
        reqA.query.redirect_uri reqA "code" scopeA) ∧
    (∀ resp : TokenResponse,
      (selfP.create_token_response ra2 rr2 reqP clP).2 = Except.ok resp →
      resp.access_token = (selfP.storage.create_token reqP clP.client_id scopeP
        (generate_token 42 ra2) (generate_token 48 rr2)).access_token ∧
      resp.refresh_token = (selfP.storage.create_token reqP clP.client_id scopeP
        (generate_token 42 ra2) (generate_token 48 rr2)).refresh_token ∧
      resp.expires_in = (selfP.storage.create_token reqP clP.client_id scopeP
        (generate_token 42 ra2) (generate_token 48 rr2)).expires_in ∧
      resp.refresh_token_expires_in = (selfP.storage.create_token reqP clP.client_id scopeP
        (generate_token 42 ra2) (generate_token 48 rr2)).refresh_token_expires_in ∧
      resp.scope = (selfP.storage.create_token reqP clP.client_id scopeP
        (generate_token 42 ra2) (generate_token 48 rr2)).scope ∧
      resp.token_type = (selfP.storage.create_token reqP clP.client_id scopeP
        (generate_token 42 ra2) (generate_token 48 rr2)).token_type ∧
      resp.id_token = selfP.storage.get_id_token clP.client_id none
        reqP.query.redirect_uri reqP "code" scopeP) := by
  constructor
  · intro resp h
    simp [AuthorizationCodeGrantType.create_token_response, hscopeA, hcode, hac] at h
    subst h
    simp
  · intro resp h
    simp [PasswordGrantType.create_token_response, hscopeP] at h
    subst h
    simp

/-- Witness for C10: on the concrete run the response's scope is the
storage-chosen Token scope, which differs from the handler's validated
scope, and the id_token is the storage-produced string. -/
theorem response_echoes_storage_witness :
    (exRespA.access_token = generate_token 42 exRandA ∧
     exRespA.refresh_token = generate_token 48 exRandR ∧
     exRespA.expires_in = 3600 ∧
     exRespA.refresh_token_expires_in = 7200 ∧
     exRespA.scope = "storage-chosen-scope" ∧
     exRespA.token_type = "Bearer" ∧
     exRespA.id_token = "idtok.client123.xyz") ∧
    exSelfA.scope = some "read write" ∧
    ("storage-chosen-scope" : String) ≠ "read write" :=
  ⟨(response_echoes_storage exSelfA exSelfP exRandA exRandR exRandA exRandR
      exRequest exRequest exClient exClient "read write" "read write" "authcode" exAC
      rfl rfl rfl rfl).1 exRespA rfl,
   rfl, by decide⟩

/-- A generated token has exactly the requested length. -/
theorem generate_token_length (n : Nat) (r : Nat → Fin token_alphabet.length) :
    (generate_token n r).length = n := by
  simp [generate_token, String.length]

/-- Every character of a generated token is drawn from the fixed alphabet. -/
theorem generate_token_chars (n : Nat) (r : Nat → Fin token_alphabet.length) :
    ∀ c ∈ (generate_token n r).data, c ∈ token_alphabet := by
  intro c hc
  simp [generate_token, String.mk] at hc
  obtain ⟨i, _, rfl⟩ := hc
  exact token_alphabet.get_mem _ _

/-- Claim C7: in every invocation of either grant type that reaches the
mint (the validated scope is set — so in particular in every successful
invocation), the access_token string handed to `storage.create_token` is
generated with requested length 42 and the refresh_token string with
requested length 48; generated strings have exactly the requested length
(hence at least 42 resp. 48 characters), all drawn from the token
alphabet. -/
theorem token_entropy_floor
    (selfA : AuthorizationCodeGrantType) (selfP : PasswordGrantType)
    (ra rr ra2 rr2 : Nat → Fin token_alphabet.length)
    (reqA reqP : Request) (clA clP : Client)
    (scopeA scopeP : String)
    (hscopeA : selfA.scope = some scopeA) (hscopeP : selfP.scope = some scopeP) :
    (selfA.create_token_response ra rr reqA clA).1.filterMap StorageOp.access_arg =
      [generate_token 42 ra] ∧
    (selfA.create_token_response ra rr reqA clA).1.filterMap StorageOp.refresh_arg =
      [generate_token 48 rr] ∧
    (selfP.create_token_response ra2 rr2 reqP clP).1.filterMap StorageOp.access_arg =
      [generate_token 42 ra2] ∧
    (selfP.create_token_response ra2 rr2 reqP clP).1.filterMap StorageOp.refresh_arg =
      [generate_token 48 rr2] ∧
    (∀ (n : Nat) (r : Nat → Fin token_alphabet.length),
      (generate_token n r).length = n ∧
      ∀ c ∈ (generate_token n r).data, c ∈ token_alphabet) := by
  refine ⟨?_, ?_, ?_, ?_, fun n r => ⟨generate_token_length n r, generate_token_chars n r⟩⟩
  all_goals
    rcases hcode : reqA.post.code with _ | code
  case _ =>
    simp [AuthorizationCodeGrantType.create_token_response, hscopeA, hcode,
      StorageOp.access_arg]
  case _ =>
    rcases hac : selfA.storage.get_authorization_code reqA clA.client_id code with _ | ac <;>
      simp [AuthorizationCodeGrantType.create_token_response, hscopeA, hcode, hac,
        StorageOp.access_arg]
  case _ =>
    simp [AuthorizationCodeGrantType.create_token_response, hscopeA, hcode,
      StorageOp.refresh_arg]
  case _ =>
    rcases hac : selfA.storage.get_authorization_code reqA clA.client_id code with _ | ac <;>
      simp [AuthorizationCodeGrantType.create_token_response, hscopeA, hcode, hac,
        StorageOp.refresh_arg]
  case _ =>
    simp [PasswordGrantType.create_token_response, hscopeP, StorageOp.access_arg]
  case _ =>
    simp [PasswordGrantType.create_token_response, hscopeP, StorageOp.access_arg]
  case _ =>
    simp [PasswordGrantType.create_token_response, hscopeP, StorageOp.refresh_arg]
  case _ =>
    simp [PasswordGrantType.create_token_response, hscopeP, StorageOp.refresh_arg]

/-- Witness for C7: the concrete runs mint with the length-42 access token
and length-48 refresh token, and the concrete generated access token has
length 42 with every character in the alphabet. -/
theorem token_entropy_floor_witness :
    (exSelfA.create_token_response exRandA exRandR exRequest exClient).1.filterMap
      StorageOp.access_arg = [generate_token 42 exRandA] ∧
    (exSelfA.create_token_response exRandA exRandR exRequest exClient).1.filterMap
      StorageOp.refresh_arg = [generate_token 48 exRandR] ∧
    ((generate_token 42 exRandA).length = 42 ∧
      ∀ c ∈ (generate_token 42 exRandA).data, c ∈ token_alphabet) ∧
    ((generate_token 48 exRandR).length = 48 ∧
      ∀ c ∈ (generate_token 48 exRandR).data, c ∈ token_alphabet) := by
  have t := token_entropy_floor exSelfA exSelfP exRandA exRandR exRandA exRandR
    exRequest exRequest exClient exClient "read write" "read write" rfl rfl
  exact ⟨t.1, t.2.1, t.2.2.2.2 42 exRandA, t.2.2.2.2 48 exRandR⟩

/-- Claim C8: `PasswordGrantType.create_token_response` never calls
`get_authorization_code` or `delete_authorization_code` on any invocation;
when the validated scope is set, its trace is exactly the token mint
followed by the identity-token request with nonce absent. -/
theorem password_no_code_ops
    (self : PasswordGrantType)
    (ra rr : Nat → Fin token_alphabet.length)
    (request : Request) (client : Client) :
    (∀ op ∈ (self.create_token_response ra rr request client).1,
      op.is_code_lookup = false ∧ op.is_code_delete = false) ∧
    (∀ scope, self.scope = some scope →
      (self.create_token_response ra rr request client).1 =
        [StorageOp.create_token request client.client_id scope
          (generate_token 42 ra) (generate_token 48 rr),
         StorageOp.get_id_token client.client_id none
          request.query.redirect_uri request "code" scope]) := by
  constructor
  · intro op hop
    cases hscope : self.scope with
    | none =>
      simp [PasswordGrantType.create_token_response, hscope] at hop
    | some scope =>
      simp [PasswordGrantType.create_token_response, hscope] at hop
      rcases hop with rfl | rfl <;>
        simp [StorageOp.is_code_lookup, StorageOp.is_code_delete]
  · intro scope hscope
    simp [PasswordGrantType.create_token_response, hscope]

/-- Witness for C8: the concrete password run's trace contains no code
lookup and no code deletion, and is exactly mint-then-id-token. -/
theorem password_no_code_ops_witness :
    (∀ op ∈ (exSelfP.create_token_response exRandA exRandR exRequest exClient).1,
      op.is_code_lookup = false ∧ op.is_code_delete = false) ∧
    (exSelfP.create_token_response exRandA exRandR exRequest exClient).1 =
      [StorageOp.create_token exRequest "client123" "read write"
        (generate_token 42 exRandA) (generate_token 48 exRandR),
       StorageOp.get_id_token "client123" none
        "https://example.com/cb" exRequest "code" "read write"] :=
  ⟨(password_no_code_ops exSelfP exRandA exRandR exRequest exClient).1,
   (password_no_code_ops exSelfP exRandA exRandR exRequest exClient).2 "read write" rfl⟩

end Aioauth
